import Mathlib

/-!
Shallow embedding of the `video-ambient-glow` library core
(`src/index.ts`, `src/lib/frameProcessor.ts`, `src/lib/canvas.ts`,
`src/constants.ts`) and proofs about its behaviour.

JavaScript numbers are modelled as rationals (`ℚ`); pixel-channel
samples of a `Uint8ClampedArray` are modelled as naturals below 256,
with the ECMAScript `ToUint8Clamp` conversion made explicit.  DOM
effects (draw calls, pixel readbacks, `console.warn`, resize passes)
are modelled as counters/flags in the result of each operation.
-/

namespace VideoAmbientGlow

/-! ## JavaScript numeric helpers -/

/-- `Math.round`: rounds half away from zero toward positive infinity,
i.e. `⌊x + 1/2⌋`. -/
def jsRound (q : ℚ) : ℤ := ⌊q + 1/2⌋

/-- Truncation toward zero, as used by the JavaScript `%` operator. -/
def jsTrunc (q : ℚ) : ℤ := if 0 ≤ q then ⌊q⌋ else ⌈q⌉

/-- The JavaScript remainder operator `a % b` for finite operands.
`b = 0` yields NaN in JavaScript; the model returns 0 there and is
only ever used under a `0 < b` hypothesis. -/
def jsMod (a b : ℚ) : ℚ := if b = 0 then 0 else a - b * jsTrunc (a / b)

/-- ECMAScript `ToUint8Clamp`: clamp to `[0, 255]` and round to the
nearest integer, ties to even.  This is what assignment into a
`Uint8ClampedArray` performs. -/
def toUint8Clamp (x : ℚ) : ℕ :=
  if x ≤ 0 then 0
  else if 255 ≤ x then 255
  else if ((⌊x⌋ : ℚ) + 1/2 < x) then (⌊x⌋).toNat + 1
  else if (x < (⌊x⌋ : ℚ) + 1/2) then (⌊x⌋).toNat
  else if (⌊x⌋).toNat % 2 = 1 then (⌊x⌋).toNat + 1 else (⌊x⌋).toNat

/-! ## constants.ts -/

def VIDEO_READY_STATE_CURRENT_DATA : ℕ := 2

def RESIZE_DEBOUNCE_MS : ℚ := 100

def MIN_CANVAS_DIMENSION : ℤ := 1

def MIN_VIDEO_DIMENSION : ℚ := 0

/-! ## Pixel buffers (ImageData) -/

/-- An `ImageData` pixel buffer.  `ref` models JavaScript object
identity: in-place mutation keeps `ref`, allocating a fresh buffer
produces a fresh `ref`.  `data` holds the 8-bit channel samples of the
backing `Uint8ClampedArray`. -/
structure ImageData where
  ref : ℕ
  width : ℕ
  height : ℕ
  data : List ℕ
deriving Repr, DecidableEq

/-- `blendFrames` from `src/lib/frameProcessor.ts`: loops `i` over
`oldFrame.data.length` and performs
`oldData[i] = oldData[i] * blendOld + newData[i] * blendNew`, each
store passing through `ToUint8Clamp`.  An out-of-range read
`newData[i]` yields `undefined`, the arithmetic yields NaN, and the
clamped store writes 0 — the `none` branch.  The buffer is mutated in
place, so the result keeps `oldFrame`'s identity and dimensions. -/
def blendFrames (oldFrame newFrame : ImageData) (blendOld blendNew : ℚ) :
    ImageData :=
  { oldFrame with
    data := (List.range oldFrame.data.length).map (fun i =>
      match newFrame.data.get? i with
      | some v =>
          toUint8Clamp ((oldFrame.data.getD i 0 : ℚ) * blendOld
            + (v : ℚ) * blendNew)
      | none => 0) }

/-! ## drawAndBlendFrame -/

/-- The slice of an `HTMLVideoElement` the library reads. -/
structure Video where
  readyState : ℕ
  videoWidth : ℕ
  videoHeight : ℕ
  rectWidth : ℚ
  rectHeight : ℚ
  paused : Bool
  ended : Bool
deriving Repr, DecidableEq

/-- Environment of one sampling attempt: whether
`drawImage`/`getImageData` throws (typically cross-origin taint), and
otherwise the pixel data and fresh object identity that
`getImageData` would return. -/
structure DrawEnv where
  throws : Bool
  pixels : List ℕ
  freshRef : ℕ
deriving Repr, DecidableEq

/-- Result of `drawAndBlendFrame`: the returned buffer plus the
observable effects of the call.  `drew` records that `drawImage` was
invoked, `readback` that `getImageData` completed, `wrote` that
`putImageData` was invoked, `warned` that `console.warn` fired. -/
structure DrawOutcome where
  result : Option ImageData
  drew : Bool
  readback : Bool
  wrote : Bool
  warned : Bool
deriving Repr, DecidableEq

/-- `drawAndBlendFrame` from `src/lib/frameProcessor.ts`.  Guard:
below `HAVE_CURRENT_DATA` readiness or zero canvas width returns the
previous buffer untouched.  The `try` block draws, reads back a
`canvasWidth × canvasHeight` buffer, then blends with `lastImage` (or
cuts if absent); any throw is caught, warned about, and `lastImage`
is returned. -/
def drawAndBlendFrame (video : Video) (canvasWidth canvasHeight : ℕ)
    (blendOld blendNew : ℚ) (lastImage : Option ImageData)
    (env : DrawEnv) : DrawOutcome :=
  if video.readyState < VIDEO_READY_STATE_CURRENT_DATA ∨ canvasWidth = 0 then
    ⟨lastImage, false, false, false, false⟩
  else if env.throws then
    ⟨lastImage, true, false, false, true⟩
  else
    let newFrame : ImageData :=
      ⟨env.freshRef, canvasWidth, canvasHeight, env.pixels⟩
    match lastImage with
    | some last =>
        ⟨some (blendFrames last newFrame blendOld blendNew),
          true, true, true, false⟩
    | none => ⟨some newFrame, true, true, true, false⟩

/-! ## Options (types.ts, constants.ts, normalizeOptions) -/

/-- Partial user-facing `GlowOptions`.  A numeric field is `none` when
the key is absent.  For `responsiveness` the distinction between "key
absent" and "key present with value `undefined`" is observable through
object spreads, so it is modelled with two `Option` layers: `none` =
key absent, `some none` = key present and `undefined`, `some (some r)`
= key present with value `r`. -/
structure GlowOptions where
  blur : Option ℚ := none
  opacity : Option ℚ := none
  brightness : Option ℚ := none
  saturate : Option ℚ := none
  scale : Option ℚ := none
  downscale : Option ℚ := none
  updateInterval : Option ℚ := none
  blendOld : Option ℚ := none
  blendNew : Option ℚ := none
  responsiveness : Option (Option ℚ) := none
deriving Repr, DecidableEq

/-- The runtime object produced by `normalizeOptions`.  Although the
TypeScript type `NormalizedGlowOptions` omits `responsiveness`, the
spread `{ ...DEFAULT_OPTIONS, ...options }` copies the key onto the
runtime object when present, so the model keeps it (`none` when the
key is absent or `undefined`). -/
structure GlowOptionsRT where
  blur : ℚ
  opacity : ℚ
  brightness : ℚ
  saturate : ℚ
  scale : ℚ
  downscale : ℚ
  updateInterval : ℚ
  blendOld : ℚ
  blendNew : ℚ
  responsiveness : Option ℚ
deriving Repr, DecidableEq

/-- `DEFAULT_OPTIONS` from `src/constants.ts` (it carries no
`responsiveness` key). -/
def DEFAULT_OPTIONS : GlowOptionsRT :=
  { blur := 96
    opacity := 65/100
    brightness := 11/10
    saturate := 12/10
    scale := 108/100
    downscale := 8/100
    updateInterval := 98
    blendOld := 85/100
    blendNew := 15/100
    responsiveness := none }

/-- `normalizeOptions` from `src/index.ts`: spread the input over the
defaults, then, when the input's `responsiveness` is not `undefined`,
overwrite `blendNew := responsiveness` and
`blendOld := 1 - responsiveness`. -/
def normalizeOptions (options : GlowOptions) : GlowOptionsRT :=
  let normalized : GlowOptionsRT :=
    { blur := options.blur.getD DEFAULT_OPTIONS.blur
      opacity := options.opacity.getD DEFAULT_OPTIONS.opacity
      brightness := options.brightness.getD DEFAULT_OPTIONS.brightness
      saturate := options.saturate.getD DEFAULT_OPTIONS.saturate
      scale := options.scale.getD DEFAULT_OPTIONS.scale
      downscale := options.downscale.getD DEFAULT_OPTIONS.downscale
      updateInterval :=
        options.updateInterval.getD DEFAULT_OPTIONS.updateInterval
      blendOld := options.blendOld.getD DEFAULT_OPTIONS.blendOld
      blendNew := options.blendNew.getD DEFAULT_OPTIONS.blendNew
      responsiveness := options.responsiveness.getD none }
  match options.responsiveness with
  | some (some r) => { normalized with blendNew := r, blendOld := 1 - r }
  | _ => normalized

/-- The object spread `{ ...current, ...newOptions }` performed by
`updateOptions` before re-normalizing: a key present in `newOptions`
wins, otherwise the value lingering on the current runtime options
object is used (every numeric key is present there). -/
def mergeOptions (current : GlowOptionsRT) (newOptions : GlowOptions) :
    GlowOptions :=
  { blur := some (newOptions.blur.getD current.blur)
    opacity := some (newOptions.opacity.getD current.opacity)
    brightness := some (newOptions.brightness.getD current.brightness)
    saturate := some (newOptions.saturate.getD current.saturate)
    scale := some (newOptions.scale.getD current.scale)
    downscale := some (newOptions.downscale.getD current.downscale)
    updateInterval :=
      some (newOptions.updateInterval.getD current.updateInterval)
    blendOld := some (newOptions.blendOld.getD current.blendOld)
    blendNew := some (newOptions.blendNew.getD current.blendNew)
    responsiveness :=
      (newOptions.responsiveness).orElse
        (fun _ => current.responsiveness.map some) }

/-! ## Instance state (the private fields of class AmbientGlow) -/

/-- The mutable fields of an `AmbientGlow` instance, together with the
observable state of its two canvases (pixel dimensions, CSS size,
applied filter styles, DOM attachment) and of its registered
listeners/observers. -/
structure GlowState where
  options : GlowOptionsRT
  lastImage : Option ImageData
  isLooping : Bool
  animationFrameId : Option ℕ
  lastUpdateTime : ℚ
  resizeTimeout : Option ℕ
  handlersAttached : Bool
  isDestroyed : Bool
  resizeObserver : Bool
  intersectionObserver : Bool
  isVisible : Bool
  canvasWidth : ℕ
  canvasHeight : ℕ
  tempWidth : ℕ
  tempHeight : ℕ
  cssWidth : ℚ
  cssHeight : ℚ
  canvasAttached : Bool
  filterBlur : ℚ
  filterOpacity : ℚ
  filterBrightness : ℚ
  filterSaturate : ℚ
deriving Repr, DecidableEq

/-- Observable effects of running one operation: the resulting state,
the number of `console.warn` calls, of resize passes that ran their
body (past the destroyed guard), and of `drawAndBlendFrame`
invocations (sample passes). -/
structure Eff where
  state : GlowState
  warns : ℕ := 0
  resizes : ℕ := 0
  samples : ℕ := 0
deriving Repr, DecidableEq

/-! ## Private methods of AmbientGlow -/

/-- The `videoWidth || rect.width` fallback read by `resizeCanvas`
(`0` is falsy in JavaScript). -/
def resizeVideoW (video : Video) : ℚ :=
  if video.videoWidth = 0 then video.rectWidth else (video.videoWidth : ℚ)

/-- The `videoHeight || rect.height` fallback read by `resizeCanvas`. -/
def resizeVideoH (video : Video) : ℚ :=
  if video.videoHeight = 0 then video.rectHeight else (video.videoHeight : ℚ)

/-- The target sampling-canvas pixel width computed by `resizeCanvas`:
`Math.max(MIN_CANVAS_DIMENSION, Math.round(videoW * downscale))`. -/
def resizeTargetW (s : GlowState) (video : Video) : ℕ :=
  (max MIN_CANVAS_DIMENSION (jsRound (resizeVideoW video * s.options.downscale))).toNat

/-- The target sampling-canvas pixel height computed by `resizeCanvas`. -/
def resizeTargetH (s : GlowState) (video : Video) : ℕ :=
  (max MIN_CANVAS_DIMENSION (jsRound (resizeVideoH video * s.options.downscale))).toNat

/-- `resizeCanvas` from `src/index.ts`: no-op when destroyed; compute
video dimensions with the `videoWidth || rect.width` fallback; return
when either is at or below `MIN_VIDEO_DIMENSION`; otherwise set both
canvases' pixel dimensions to the rounded downscaled target,
invalidating `lastImage` when they change, and always refresh the CSS
size from `rect * scale`. -/
def resizeCanvas (s : GlowState) (video : Video) : Eff :=
  if s.isDestroyed then ⟨s, 0, 0, 0⟩
  else if resizeVideoW video ≤ MIN_VIDEO_DIMENSION ∨
      resizeVideoH video ≤ MIN_VIDEO_DIMENSION then
    ⟨s, 0, 1, 0⟩
  else if s.canvasWidth ≠ resizeTargetW s video ∨
      s.canvasHeight ≠ resizeTargetH s video then
    ⟨{ s with canvasWidth := resizeTargetW s video,
              canvasHeight := resizeTargetH s video,
              tempWidth := resizeTargetW s video,
              tempHeight := resizeTargetH s video,
              lastImage := none,
              cssWidth := video.rectWidth * s.options.scale,
              cssHeight := video.rectHeight * s.options.scale }, 0, 1, 0⟩
  else
    ⟨{ s with cssWidth := video.rectWidth * s.options.scale,
              cssHeight := video.rectHeight * s.options.scale }, 0, 1, 0⟩

/-- `drawFrame` from `src/index.ts`: guarded by `isDestroyed` and
`canvas.width === 0`, then stores the result of a blending
`drawAndBlendFrame` pass (previous buffer passed through). -/
def drawFrame (s : GlowState) (video : Video) (env : DrawEnv) : Eff :=
  if s.isDestroyed then ⟨s, 0, 0, 0⟩
  else if s.canvasWidth = 0 then ⟨s, 0, 0, 0⟩
  else
    let o := drawAndBlendFrame video s.canvasWidth s.canvasHeight
      s.options.blendOld s.options.blendNew s.lastImage env
    ⟨{ s with lastImage := o.result }, if o.warned then 1 else 0, 0, 1⟩

/-- `drawFrameImmediately` from `src/index.ts`: same as `drawFrame`
but passes `null` for the previous buffer (a forced cut). -/
def drawFrameImmediately (s : GlowState) (video : Video) (env : DrawEnv) :
    Eff :=
  if s.isDestroyed then ⟨s, 0, 0, 0⟩
  else if s.canvasWidth = 0 then ⟨s, 0, 0, 0⟩
  else
    let o := drawAndBlendFrame video s.canvasWidth s.canvasHeight
      s.options.blendOld s.options.blendNew none env
    ⟨{ s with lastImage := o.result }, if o.warned then 1 else 0, 0, 1⟩

/-- The reference timestamp the loop measures elapsed time from:
`lastUpdateTime`, or the current frame timestamp when
`lastUpdateTime` is still falsy (the `if (!this.lastUpdateTime)`
initialization). -/
def loopRef (s : GlowState) (t : ℚ) : ℚ :=
  if s.lastUpdateTime = 0 then t else s.lastUpdateTime

/-- `animationLoop` from `src/index.ts`.  `t` is the
`requestAnimationFrame` timestamp, `newId` the handle of the
re-scheduled frame callback. -/
def animationLoop (s : GlowState) (video : Video) (t : ℚ) (newId : ℕ)
    (env : DrawEnv) : Eff :=
  if ¬ s.isLooping ∨ s.isDestroyed then
    ⟨{ s with animationFrameId := none }, 0, 0, 0⟩
  else if s.options.updateInterval ≤ t - loopRef s t then
    drawFrame
      { s with animationFrameId := some newId,
               lastUpdateTime :=
                 t - jsMod (t - loopRef s t) s.options.updateInterval }
      video env
  else
    ⟨{ s with animationFrameId := some newId,
              lastUpdateTime := loopRef s t }, 0, 0, 0⟩

/-- `debouncedResize` from `src/index.ts`: when not destroyed, clears
any pending debounce timer and schedules a new one (handle `newId`).
This is also the callback the `ResizeObserver` (or the window
`resize` fallback) invokes. -/
def debouncedResize (s : GlowState) (newId : ℕ) : Eff :=
  if s.isDestroyed then ⟨s, 0, 0, 0⟩
  else ⟨{ s with resizeTimeout := some newId }, 0, 0, 0⟩

/-- Body of the debounce timer scheduled by `debouncedResize`:
re-checks `isDestroyed`, then resizes and samples. -/
def resizeTimeoutBody (s : GlowState) (video : Video) (env : DrawEnv) :
    Eff :=
  if s.isDestroyed then ⟨s, 0, 0, 0⟩
  else
    let e1 := resizeCanvas s video
    let e2 := drawFrame e1.state video env
    ⟨e2.state, e1.warns + e2.warns, e1.resizes + e2.resizes,
      e1.samples + e2.samples⟩

/-- `handleVisibilityChange` from `src/index.ts`. -/
def handleVisibilityChange (s : GlowState) (video : Video) (newId : ℕ) :
    GlowState :=
  if s.isDestroyed then s
  else if ¬ s.isVisible then { s with isLooping := false }
  else if ¬ video.paused ∧ ¬ video.ended then
    let s1 := { s with isLooping := true }
    if s1.animationFrameId = none then
      { s1 with lastUpdateTime := 0, animationFrameId := some newId }
    else s1
  else s

/-- The `IntersectionObserver` callback installed by
`setupEventListeners`: bail out when destroyed, record visibility,
then run `handleVisibilityChange`. -/
def intersectionCallback (s : GlowState) (isIntersecting : Bool)
    (video : Video) (newId : ℕ) : Eff :=
  if s.isDestroyed then ⟨s, 0, 0, 0⟩
  else
    ⟨handleVisibilityChange { s with isVisible := isIntersecting }
      video newId, 0, 0, 0⟩

/-! ## Video event handlers -/

def handleLoadStart (s : GlowState) (video : Video) (env : DrawEnv) : Eff :=
  if s.isDestroyed then ⟨s, 0, 0, 0⟩
  else drawFrameImmediately { s with lastImage := none } video env

def handleLoadedMetadata (s : GlowState) (video : Video) : Eff :=
  if s.isDestroyed then ⟨s, 0, 0, 0⟩
  else resizeCanvas s video

def handleCanPlay (s : GlowState) (video : Video) (env : DrawEnv) : Eff :=
  if s.isDestroyed then ⟨s, 0, 0, 0⟩
  else
    let e1 := resizeCanvas s video
    let e2 := drawFrame e1.state video env
    ⟨e2.state, e1.warns + e2.warns, e1.resizes + e2.resizes,
      e1.samples + e2.samples⟩

def handlePlay (s : GlowState) (video : Video) (env : DrawEnv)
    (newId : ℕ) : Eff :=
  if s.isDestroyed then ⟨s, 0, 0, 0⟩
  else
    let e1 := drawFrameImmediately { s with lastImage := none } video env
    let s1 : GlowState := { e1.state with isLooping := true }
    let s2 : GlowState :=
      if s1.animationFrameId = none then
        { s1 with lastUpdateTime := 0, animationFrameId := some newId }
      else s1
    ⟨s2, e1.warns, e1.resizes, e1.samples⟩

def handleSeeked (s : GlowState) (video : Video) (env : DrawEnv) : Eff :=
  if s.isDestroyed then ⟨s, 0, 0, 0⟩
  else drawFrameImmediately { s with lastImage := none } video env

def handlePause (s : GlowState) : GlowState := { s with isLooping := false }

def handleEnded (s : GlowState) : GlowState := { s with isLooping := false }

/-! ## Public methods -/

/-- Result of `updateOptions`: resulting state, `console.warn` count,
whether `resizeCanvas` was invoked, and the number of sample passes
(`drawAndBlendFrame` invocations). -/
structure UpdateResult where
  state : GlowState
  warns : ℕ
  resizeTriggered : Bool
  samples : ℕ
deriving Repr, DecidableEq

/-- `updateOptions` from `src/index.ts`: warn-and-return when
destroyed; otherwise merge + normalize the options, re-apply the
filter styles, call `resizeCanvas` exactly when the partial input
defines `downscale` or `scale`, and finish with one `drawFrame`. -/
def updateOptions (s : GlowState) (newOptions : GlowOptions)
    (video : Video) (env : DrawEnv) : UpdateResult :=
  if s.isDestroyed then ⟨s, 1, false, 0⟩
  else
    let opts := normalizeOptions (mergeOptions s.options newOptions)
    let s1 := { s with options := opts,
                       filterBlur := opts.blur,
                       filterOpacity := opts.opacity,
                       filterBrightness := opts.brightness,
                       filterSaturate := opts.saturate }
    if newOptions.downscale.isSome ∨ newOptions.scale.isSome then
      let e1 := resizeCanvas s1 video
      let e2 := drawFrame e1.state video env
      ⟨e2.state, e1.warns + e2.warns, true, e1.samples + e2.samples⟩
    else
      let e2 := drawFrame s1 video env
      ⟨e2.state, e2.warns, false, e2.samples⟩

/-- `getIsDestroyed` from `src/index.ts`. -/
def getIsDestroyed (s : GlowState) : Bool := s.isDestroyed

/-- `destroy` from `src/index.ts`: an immediate silent return when
already destroyed; otherwise stop the loop, cancel the pending
animation frame and debounce timer, disconnect both observers, detach
all listeners, remove the canvas from the DOM and drop the previous
buffer.  `destroy` contains no `console.warn` call, so `warns = 0` on
every path. -/
def destroy (s : GlowState) : Eff :=
  if s.isDestroyed then ⟨s, 0, 0, 0⟩
  else
    ⟨{ s with isDestroyed := true,
              isLooping := false,
              animationFrameId := none,
              resizeTimeout := none,
              resizeObserver := false,
              intersectionObserver := false,
              handlersAttached := false,
              canvasAttached := false,
              lastImage := none }, 0, 0, 0⟩

/-! ## Event-step semantics -/

/-- One externally triggered transition of an instance, with the
ambient data (video snapshot, timestamps, scheduler handles, sampling
environment) it consumes. -/
inductive Event where
  | loadStart (video : Video) (env : DrawEnv)
  | loadedMetadata (video : Video)
  | canPlay (video : Video) (env : DrawEnv)
  | play (video : Video) (env : DrawEnv) (newId : ℕ)
  | pause
  | ended
  | seeked (video : Video) (env : DrawEnv)
  | frame (video : Video) (t : ℚ) (newId : ℕ) (env : DrawEnv)
  | resizeSignal (newId : ℕ)
  | resizeFire (video : Video) (env : DrawEnv)
  | visibility (isIntersecting : Bool) (video : Video) (newId : ℕ)
  | update (newOptions : GlowOptions) (video : Video) (env : DrawEnv)
  | destroyCall
deriving Repr, DecidableEq

/-- Applies one event to an instance state. -/
def step (s : GlowState) (e : Event) : GlowState :=
  match e with
  | .loadStart v env => (handleLoadStart s v env).state
  | .loadedMetadata v => (handleLoadedMetadata s v).state
  | .canPlay v env => (handleCanPlay s v env).state
  | .play v env newId => (handlePlay s v env newId).state
  | .pause => handlePause s
  | .ended => handleEnded s
  | .seeked v env => (handleSeeked s v env).state
  | .frame v t newId env => (animationLoop s v t newId env).state
  | .resizeSignal newId => (debouncedResize s newId).state
  | .resizeFire v env => (resizeTimeoutBody s v env).state
  | .visibility b v newId => (intersectionCallback s b v newId).state
  | .update o v env => (updateOptions s o v env).state
  | .destroyCall => (destroy s).state

/-- Runs a sequence of events. -/
def run (s : GlowState) (es : List Event) : GlowState := es.foldl step s

/-- The buffer-dimension invariant: a present previous frame buffer
always matches the sampling canvas's pixel dimensions. -/
def BufferDimsInvariant (s : GlowState) : Prop :=
  ∀ img, s.lastImage = some img →
    img.width = s.canvasWidth ∧ img.height = s.canvasHeight

instance (s : GlowState) : Decidable (BufferDimsInvariant s) := by
  unfold BufferDimsInvariant
  cases s.lastImage with
  | none => exact isTrue (by intro img h; cases h)
  | some i =>
      exact decidable_of_iff
        (i.width = s.canvasWidth ∧ i.height = s.canvasHeight)
        ⟨fun h img himg => by cases himg; exact h,
         fun h => h i rfl⟩

/-! ## Concrete fixtures used by witnesses and counterexamples -/

/-- A playing 640×360 video with a current decodable frame. -/
def testVideo : Video :=
  { readyState := 4, videoWidth := 640, videoHeight := 360,
    rectWidth := 640, rectHeight := 360, paused := false, ended := false }

/-- A benign sampling environment: no throw, one white-ish pixel. -/
def testEnv : DrawEnv :=
  { throws := false, pixels := [10, 20, 30, 255], freshRef := 7 }

/-- A post-construction state for `testVideo` under the default
options (640·0.08 rounds to 51, 360·0.08 rounds to 29). -/
def testState : GlowState :=
  { options := DEFAULT_OPTIONS
    lastImage := none
    isLooping := false
    animationFrameId := none
    lastUpdateTime := 0
    resizeTimeout := none
    handlersAttached := true
    isDestroyed := false
    resizeObserver := true
    intersectionObserver := true
    isVisible := true
    canvasWidth := 51
    canvasHeight := 29
    tempWidth := 51
    tempHeight := 29
    cssWidth := 3456/5
    cssHeight := 1944/5
    canvasAttached := true
    filterBlur := 96
    filterOpacity := 65/100
    filterBrightness := 11/10
    filterSaturate := 12/10 }

/-- The spec's responsiveness-override scenario input
`{blendOld: 0.9, blendNew: 0.1, responsiveness: 0.25}`. -/
def scenarioOptions : GlowOptions :=
  { blendOld := some (9/10), blendNew := some (1/10),
    responsiveness := some (some (1/4)) }

/-- A live state whose stored options carry responsiveness 0.25. -/
def respState : GlowState :=
  { testState with options :=
      { DEFAULT_OPTIONS with blendNew := 1/4, blendOld := 3/4, responsiveness := some (1/4) } }

/-- A partial update carrying only explicit blend weights. -/
def weightsOnlyUpdate : GlowOptions :=
  { blendOld := some (9/10), blendNew := some (1/10) }

/-- testState with the loop running and reference timestamp 1000. -/
def loopState : GlowState := { testState with isLooping := true, lastUpdateTime := 1000 }

/-! ## Supporting lemmas -/

theorem toUint8Clamp_coe (n : ℕ) (h : n < 256) : toUint8Clamp (n : ℚ) = n := by
  unfold toUint8Clamp
  rcases Nat.eq_zero_or_pos n with h0 | h0
  · subst h0; norm_num
  · have h1 : ¬ ((n : ℚ) ≤ 0) := by
      push_neg
      exact_mod_cast h0
    rw [if_neg h1]
    by_cases h2 : (255 : ℚ) ≤ (n : ℚ)
    · have h255 : n = 255 :=
        le_antisymm (Nat.lt_succ_iff.mp h) (by exact_mod_cast h2)
      rw [if_pos h2, h255]
    · rw [if_neg h2]
      have hf : ⌊(n : ℚ)⌋ = (n : ℤ) := Int.floor_natCast n
      rw [hf]
      have hlt : ¬ (((n : ℤ) : ℚ) + 1/2 < (n : ℚ)) := by
        push_cast
        linarith
      rw [if_neg hlt]
      have hlt2 : ((n : ℚ)) < ((n : ℤ) : ℚ) + 1/2 := by
        push_cast
        linarith
      rw [if_pos hlt2, Int.toNat_natCast]

theorem blendFrames_data_length (p q : ImageData) (wo wn : ℚ) :
    (blendFrames p q wo wn).data.length = p.data.length := by
  simp [blendFrames]

theorem blendFrames_getD (p q : ImageData) (wo wn : ℚ) (i : ℕ)
    (hi : i < p.data.length) (hlen : p.data.length = q.data.length) :
    (blendFrames p q wo wn).data.getD i 0 =
      toUint8Clamp ((p.data.getD i 0 : ℚ) * wo + (q.data.getD i 0 : ℚ) * wn) := by
  have hiq : i < q.data.length := hlen ▸ hi
  unfold blendFrames
  simp only [List.getD_eq_getElem?_getD, List.getElem?_map,
    List.getElem?_range hi, Option.map_some', Option.getD_some,
    List.get?_eq_get hiq, List.get_eq_getElem]
  rw [List.getElem?_eq_getElem hi, List.getElem?_eq_getElem hiq]
  rfl

theorem blendFrames_weight_one_zero (p q : ImageData)
    (hlen : p.data.length = q.data.length)
    (hp : ∀ x ∈ p.data, x < 256) :
    (blendFrames p q 1 0).data = p.data := by
  apply List.ext_getElem (by simp [blendFrames])
  intro i h1 h2
  have hiq : i < q.data.length := hlen ▸ h2
  unfold blendFrames
  simp only [List.getElem_map, List.getElem_range,
    List.get?_eq_get hiq, List.get_eq_getElem]
  have h255 : p.data[i] < 256 := hp _ (List.getElem_mem h2)
  calc toUint8Clamp ((p.data.getD i 0 : ℚ) * 1 + (q.data[i] : ℚ) * 0)
      = toUint8Clamp ((p.data[i] : ℚ)) := by
        rw [List.getD_eq_getElem _ _ h2]; ring_nf
    _ = p.data[i] := toUint8Clamp_coe _ h255

theorem blendFrames_weight_zero_one (p q : ImageData)
    (hlen : p.data.length = q.data.length)
    (hq : ∀ x ∈ q.data, x < 256) :
    (blendFrames p q 0 1).data = q.data := by
  apply List.ext_getElem (by simp [blendFrames, hlen])
  intro i h1 h2
  have hip : i < p.data.length := hlen.symm ▸ h2
  unfold blendFrames
  simp only [List.getElem_map, List.getElem_range,
    List.get?_eq_get h2, List.get_eq_getElem]
  have h255 : q.data[i] < 256 := hq _ (List.getElem_mem h2)
  calc toUint8Clamp ((p.data.getD i 0 : ℚ) * 0 + (q.data[i] : ℚ) * 1)
      = toUint8Clamp ((q.data[i] : ℚ)) := by ring_nf
    _ = q.data[i] := toUint8Clamp_coe _ h255

/-! ## Claims -/

/-- C1: for buffers of identical layout, `blendFrames` returns the
`previous` buffer itself (same object identity, same dimensions),
mutated so that channel `i` holds the `ToUint8Clamp` of
`previous[i]*weightOld + incoming[i]*weightNew` computed from the
pre-blend values; weights (1,0) leave the data unchanged and weights
(0,1) make the data equal to the incoming buffer's data. -/
theorem blendFrames_inPlace_weighted_clamp (p q : ImageData) (wo wn : ℚ)
    (hw : p.width = q.width) (hh : p.height = q.height)
    (hlen : p.data.length = q.data.length)
    (hp : ∀ x ∈ p.data, x < 256) (hq : ∀ x ∈ q.data, x < 256) :
    ((blendFrames p q wo wn).ref = p.ref ∧
      (blendFrames p q wo wn).width = p.width ∧
      (blendFrames p q wo wn).height = p.height ∧
      (blendFrames p q wo wn).data.length = p.data.length) ∧
    (∀ i, i < p.data.length →
      (blendFrames p q wo wn).data.getD i 0 =
        toUint8Clamp ((p.data.getD i 0 : ℚ) * wo + (q.data.getD i 0 : ℚ) * wn)) ∧
    (blendFrames p q 1 0).data = p.data ∧
    (blendFrames p q 0 1).data = q.data := by
  refine ⟨⟨rfl, rfl, rfl, blendFrames_data_length p q wo wn⟩, ?_, ?_, ?_⟩
  · intro i hi
    exact blendFrames_getD p q wo wn i hi hlen
  · exact blendFrames_weight_one_zero p q hlen hp
  · exact blendFrames_weight_zero_one p q hlen hq

/-- Witness for C1 at two concrete 1×1 RGBA buffers with weights
(17/20, 3/20): channel 0 blends 200·0.85 + 100·0.15 = 185. -/
theorem blendFrames_inPlace_weighted_clamp_witness :
    (ImageData.mk 3 1 1 [200, 0, 16, 255]).width =
        (ImageData.mk 9 1 1 [100, 60, 17, 255]).width ∧
    (blendFrames (ImageData.mk 3 1 1 [200, 0, 16, 255])
        (ImageData.mk 9 1 1 [100, 60, 17, 255]) (17/20) (3/20)).data =
      [185, 9, 16, 255] ∧
    (blendFrames (ImageData.mk 3 1 1 [200, 0, 16, 255])
        (ImageData.mk 9 1 1 [100, 60, 17, 255]) (17/20) (3/20)).ref = 3 := by
  have h := blendFrames_inPlace_weighted_clamp
    (ImageData.mk 3 1 1 [200, 0, 16, 255])
    (ImageData.mk 9 1 1 [100, 60, 17, 255]) (17/20) (3/20)
    rfl rfl rfl (by decide) (by decide)
  refine ⟨rfl, ?_, h.1.1⟩
  simp only [blendFrames]
  norm_num [List.range_succ, toUint8Clamp]
  omega

/-- C7: when video readiness is below HAVE_CURRENT_DATA or the
sampling canvas width is zero, `drawAndBlendFrame` returns the
previous buffer unchanged and performs no draw call and no pixel
readback (and no write and no warning). -/
theorem drawAndBlendFrame_not_ready_noop (v : Video) (cw ch : ℕ)
    (bo bn : ℚ) (li : Option ImageData) (env : DrawEnv)
    (h : v.readyState < VIDEO_READY_STATE_CURRENT_DATA ∨ cw = 0) :
    drawAndBlendFrame v cw ch bo bn li env =
      ⟨li, false, false, false, false⟩ := by
  unfold drawAndBlendFrame
  rw [if_pos h]

/-- Witness for C7: a video with readyState 1 is sampled; the
previous buffer comes back unchanged with no draw, readback, write
or warning. -/
theorem drawAndBlendFrame_not_ready_noop_witness :
    drawAndBlendFrame { testVideo with readyState := 1 } 51 29 (85/100)
        (15/100) (some (ImageData.mk 3 1 1 [1, 2, 3, 4])) testEnv =
      ⟨some (ImageData.mk 3 1 1 [1, 2, 3, 4]), false, false, false, false⟩ :=
  drawAndBlendFrame_not_ready_noop { testVideo with readyState := 1 } 51 29
    (85/100) (15/100) (some (ImageData.mk 3 1 1 [1, 2, 3, 4])) testEnv
    (Or.inl (by decide))

/-- C6: when the video is ready and the canvas is non-degenerate but
drawing or pixel readback throws, `drawAndBlendFrame` catches the
exception (it is a total function, nothing propagates), logs a
warning, and returns the previous buffer unchanged. -/
theorem drawAndBlendFrame_catch_preserves_buffer (v : Video) (cw ch : ℕ)
    (bo bn : ℚ) (li : Option ImageData) (env : DrawEnv)
    (hready : VIDEO_READY_STATE_CURRENT_DATA ≤ v.readyState) (hcw : cw ≠ 0)
    (hthrow : env.throws = true) :
    drawAndBlendFrame v cw ch bo bn li env = ⟨li, true, false, false, true⟩ := by
  unfold drawAndBlendFrame
  rw [if_neg (by push_neg; exact ⟨not_lt.mp (by simpa using hready), hcw⟩)]
  rw [hthrow]
  rfl

/-- Witness for C6: a tainted readback on a ready video leaves the
previous buffer in place and warns. -/
theorem drawAndBlendFrame_catch_preserves_buffer_witness :
    drawAndBlendFrame testVideo 51 29 (85/100) (15/100)
        (some (ImageData.mk 4 51 29 [9, 9, 9, 9]))
        { testEnv with throws := true } =
      ⟨some (ImageData.mk 4 51 29 [9, 9, 9, 9]), true, false, false, true⟩ :=
  drawAndBlendFrame_catch_preserves_buffer testVideo 51 29 (85/100) (15/100)
    (some (ImageData.mk 4 51 29 [9, 9, 9, 9]))
    { testEnv with throws := true } (by decide) (by decide) rfl

/-- C4: a defined `responsiveness` value in the input overrides any
explicit blend weights as `blendNew = r`, `blendOld = 1 - r`; inputs
without it keep their explicit or default weights; in particular
`{blendOld: 0.9, blendNew: 0.1, responsiveness: 0.25}` resolves to
`blendOld = 0.75`, `blendNew = 0.25`. -/
theorem normalizeOptions_responsiveness_overrides (options : GlowOptions)
    (r : ℚ) :
    (options.responsiveness = some (some r) →
      (normalizeOptions options).blendNew = r ∧
      (normalizeOptions options).blendOld = 1 - r) ∧
    (options.responsiveness = none ∨ options.responsiveness = some none →
      (normalizeOptions options).blendOld =
        options.blendOld.getD DEFAULT_OPTIONS.blendOld ∧
      (normalizeOptions options).blendNew =
        options.blendNew.getD DEFAULT_OPTIONS.blendNew) ∧
    (normalizeOptions scenarioOptions).blendOld = 3/4 ∧
    (normalizeOptions scenarioOptions).blendNew = 1/4 := by
  refine ⟨fun h => ?_, fun h => ?_, ?_, ?_⟩
  · rw [normalizeOptions, h]
    exact ⟨rfl, rfl⟩
  · rcases h with h | h <;> rw [normalizeOptions, h] <;> exact ⟨rfl, rfl⟩
  · show (1 : ℚ) - 1/4 = 3/4
    norm_num
  · rfl

/-- Witness for C4 at the spec's scenario input. -/
theorem normalizeOptions_responsiveness_overrides_witness :
    (normalizeOptions scenarioOptions).blendNew = 1/4 ∧
    (normalizeOptions scenarioOptions).blendOld = 1 - 1/4 :=
  (normalizeOptions_responsiveness_overrides scenarioOptions (1/4)).1 rfl

/-! ## Field-preservation helpers -/

theorem resizeCanvas_options (s : GlowState) (v : Video) :
    (resizeCanvas s v).state.options = s.options := by
  unfold resizeCanvas
  split_ifs <;> rfl

theorem resizeCanvas_isDestroyed (s : GlowState) (v : Video) :
    (resizeCanvas s v).state.isDestroyed = s.isDestroyed := by
  unfold resizeCanvas
  split_ifs <;> rfl

theorem resizeCanvas_samples (s : GlowState) (v : Video) :
    (resizeCanvas s v).samples = 0 := by
  unfold resizeCanvas
  split_ifs <;> rfl

theorem resizeTargetW_ne_zero (s : GlowState) (v : Video) :
    resizeTargetW s v ≠ 0 := by
  unfold resizeTargetW
  have h4 : MIN_CANVAS_DIMENSION ≤
      max MIN_CANVAS_DIMENSION (jsRound (resizeVideoW v * s.options.downscale)) :=
    le_max_left _ _
  unfold MIN_CANVAS_DIMENSION at h4 ⊢
  omega

theorem resizeCanvas_canvasWidth_ne_zero (s : GlowState) (v : Video)
    (h : s.canvasWidth ≠ 0) : (resizeCanvas s v).state.canvasWidth ≠ 0 := by
  unfold resizeCanvas
  split_ifs with h1 h2 h3
  · exact h
  · exact h
  · exact resizeTargetW_ne_zero s v
  · exact h

theorem drawFrame_options (s : GlowState) (v : Video) (env : DrawEnv) :
    (drawFrame s v env).state.options = s.options := by
  unfold drawFrame
  split_ifs <;> rfl

theorem drawFrame_samples_one (s : GlowState) (v : Video) (env : DrawEnv)
    (hd : s.isDestroyed = false) (hw : s.canvasWidth ≠ 0) :
    (drawFrame s v env).samples = 1 := by
  unfold drawFrame
  rw [if_neg (by simp [hd]), if_neg hw]

theorem drawFrame_lastUpdateTime (s : GlowState) (v : Video) (env : DrawEnv) :
    (drawFrame s v env).state.lastUpdateTime = s.lastUpdateTime := by
  unfold drawFrame
  split_ifs <;> rfl

/-- After `updateOptions` on a live instance the stored options are
exactly the normalized merge of the current options with the partial
input. -/
theorem updateOptions_options (s : GlowState) (o : GlowOptions) (v : Video)
    (env : DrawEnv) (hd : s.isDestroyed = false) :
    (updateOptions s o v env).state.options =
      normalizeOptions (mergeOptions s.options o) := by
  unfold updateOptions
  rw [if_neg (by simp [hd])]
  split_ifs
  · rw [drawFrame_options, resizeCanvas_options]
  · rw [drawFrame_options]

/-- C10: once a `responsiveness` value `r` is stored, an
`updateOptions` call without a `responsiveness` key keeps resolving
`blendNew = r`, `blendOld = 1 - r` (explicit blend weights in the
call have no effect) and retains `r`; supplying a new value `r2`
switches to it; explicitly supplying `undefined` clears it and lets
the merged explicit weights through. -/
theorem responsiveness_persists_across_updates (s : GlowState)
    (o : GlowOptions) (v : Video) (env : DrawEnv) (r : ℚ)
    (hd : s.isDestroyed = false)
    (hr : s.options.responsiveness = some r) :
    (o.responsiveness = none →
      (updateOptions s o v env).state.options.blendNew = r ∧
      (updateOptions s o v env).state.options.blendOld = 1 - r ∧
      (updateOptions s o v env).state.options.responsiveness = some r) ∧
    (∀ r2, o.responsiveness = some (some r2) →
      (updateOptions s o v env).state.options.blendNew = r2 ∧
      (updateOptions s o v env).state.options.blendOld = 1 - r2 ∧
      (updateOptions s o v env).state.options.responsiveness = some r2) ∧
    (o.responsiveness = some none →
      (updateOptions s o v env).state.options.responsiveness = none ∧
      (updateOptions s o v env).state.options.blendOld =
        o.blendOld.getD s.options.blendOld ∧
      (updateOptions s o v env).state.options.blendNew =
        o.blendNew.getD s.options.blendNew) := by
  rw [updateOptions_options s o v env hd]
  refine ⟨fun h => ?_, fun r2 h => ?_, fun h => ?_⟩
  · have hm : (mergeOptions s.options o).responsiveness = some (some r) := by
      simp [mergeOptions, h, hr, Option.orElse]
    rw [normalizeOptions, hm]
    exact ⟨rfl, rfl, by simp [hm]⟩
  · have hm : (mergeOptions s.options o).responsiveness = some (some r2) := by
      simp [mergeOptions, h, Option.orElse]
    rw [normalizeOptions, hm]
    exact ⟨rfl, rfl, by simp [hm]⟩
  · have hm : (mergeOptions s.options o).responsiveness = some none := by
      simp [mergeOptions, h, Option.orElse]
    rw [normalizeOptions, hm]
    exact ⟨rfl, by simp [mergeOptions], by simp [mergeOptions]⟩

/-- Witness for C10: with stored responsiveness 0.25, an update
passing only explicit weights 0.9/0.1 still resolves 0.25/0.75. -/
theorem responsiveness_persists_across_updates_witness :
    (updateOptions respState weightsOnlyUpdate
        testVideo testEnv).state.options.blendNew = 1/4 ∧
    (updateOptions respState weightsOnlyUpdate
        testVideo testEnv).state.options.blendOld = 1 - 1/4 :=
  have h := responsiveness_persists_across_updates respState
    weightsOnlyUpdate testVideo testEnv (1/4) rfl rfl
  ⟨(h.1 rfl).1, (h.1 rfl).2.1⟩

/-- C9: on a frame tick of the running loop (looping, not destroyed,
positive update interval, non-degenerate canvas), a sample pass is
performed exactly when the elapsed time since the reference timestamp
is at least `updateInterval`, and on a performed sample the new
reference timestamp is `t - ((t - ref) mod updateInterval)` rather
than `t`. -/
theorem animationLoop_cadence (s : GlowState) (v : Video) (t : ℚ)
    (newId : ℕ) (env : DrawEnv)
    (hl : s.isLooping = true) (hd : s.isDestroyed = false)
    (hui : 0 < s.options.updateInterval) (hcw : s.canvasWidth ≠ 0) :
    ((animationLoop s v t newId env).samples = 1 ↔
      s.options.updateInterval ≤ t - loopRef s t) ∧
    (s.options.updateInterval ≤ t - loopRef s t →
      (animationLoop s v t newId env).state.lastUpdateTime =
        t - jsMod (t - loopRef s t) s.options.updateInterval) ∧
    (¬ s.options.updateInterval ≤ t - loopRef s t →
      (animationLoop s v t newId env).samples = 0 ∧
      (animationLoop s v t newId env).state.lastUpdateTime = loopRef s t) := by
  unfold animationLoop
  rw [if_neg (by simp [hl, hd])]
  split_ifs with hcond
  · refine ⟨⟨fun _ => hcond, fun _ => ?_⟩, fun _ => ?_, fun hno => absurd hcond hno⟩
    · exact drawFrame_samples_one _ v env hd hcw
    · rw [drawFrame_lastUpdateTime]
  · refine ⟨?_, fun h => absurd h hcond, fun _ => ⟨rfl, rfl⟩⟩
    simp [hcond]

/-- Witness for C9: loop state with reference 1000 ticked at 1100
under interval 98 samples once and re-anchors at 1098 = 1100 - (100
mod 98). -/
theorem animationLoop_cadence_witness :
    (animationLoop loopState testVideo 1100 5 testEnv).samples = 1 ∧
    (animationLoop loopState
        testVideo 1100 5 testEnv).state.lastUpdateTime = 1098 := by
  have h := animationLoop_cadence loopState
    testVideo 1100 5 testEnv rfl rfl
    (by norm_num [loopState, testState, DEFAULT_OPTIONS])
    (by norm_num [loopState, testState])
  have hcond : loopState.options.updateInterval ≤
      1100 - loopRef loopState 1100 := by
    norm_num [loopState, testState, DEFAULT_OPTIONS, loopRef]
  refine ⟨h.1.mpr hcond, ?_⟩
  rw [h.2.1 hcond]
  norm_num [loopState, testState, DEFAULT_OPTIONS, loopRef, jsMod, jsTrunc]

/-! ## Destroyed-state helpers -/

theorem destroy_state_isDestroyed (s : GlowState) :
    (destroy s).state.isDestroyed = true := by
  unfold destroy
  split_ifs with h
  · exact h
  · rfl

theorem destroy_absorbing (s : GlowState) (h : s.isDestroyed = true) :
    destroy s = ⟨s, 0, 0, 0⟩ := by
  unfold destroy
  rw [if_pos h]

/-- C3 counterexample: after a first `destroy()`, a second `destroy()`
call performs no `console.warn` at all, contradicting the claim that
every post-destroy public operation emits a logged warning (the code
returns silently at `if (this.isDestroyed) return`). -/
theorem destroy_second_call_emits_no_warning :
    getIsDestroyed (destroy testState).state = true ∧
    (destroy (destroy testState).state).warns = 0 := ⟨rfl, rfl⟩

/-- C3 amended: after destroy, `updateOptions` is a warning-logged
no-op (state unchanged, exactly one warning, no sample, no resize), a
repeated `destroy` is a silent no-op (state unchanged, zero
warnings), and `getIsDestroyed` answers `true`; none of them throws
(all are total functions). -/
theorem post_destroy_operations_noop (s : GlowState) (o : GlowOptions)
    (v : Video) (env : DrawEnv) :
    getIsDestroyed (destroy s).state = true ∧
    (updateOptions (destroy s).state o v env).state = (destroy s).state ∧
    (updateOptions (destroy s).state o v env).warns = 1 ∧
    (updateOptions (destroy s).state o v env).samples = 0 ∧
    (updateOptions (destroy s).state o v env).resizeTriggered = false ∧
    (destroy (destroy s).state).state = (destroy s).state ∧
    (destroy (destroy s).state).warns = 0 := by
  have hd := destroy_state_isDestroyed s
  refine ⟨hd, ?_, ?_, ?_, ?_, ?_, ?_⟩
  · unfold updateOptions; rw [if_pos hd]
  · unfold updateOptions; rw [if_pos hd]
  · unfold updateOptions; rw [if_pos hd]
  · unfold updateOptions; rw [if_pos hd]
  · rw [destroy_absorbing _ hd]
  · rw [destroy_absorbing _ hd]

/-! ## updateOptions structure helpers -/

theorem drawFrame_state_eq (s : GlowState) (v : Video) (env : DrawEnv) :
    (drawFrame s v env).state =
      { s with lastImage := (drawFrame s v env).state.lastImage } := by
  unfold drawFrame
  split_ifs <;> rfl

theorem resizeCanvas_state_eq (s : GlowState) (v : Video) :
    (resizeCanvas s v).state =
      { s with lastImage := (resizeCanvas s v).state.lastImage,
               canvasWidth := (resizeCanvas s v).state.canvasWidth,
               canvasHeight := (resizeCanvas s v).state.canvasHeight,
               tempWidth := (resizeCanvas s v).state.tempWidth,
               tempHeight := (resizeCanvas s v).state.tempHeight,
               cssWidth := (resizeCanvas s v).state.cssWidth,
               cssHeight := (resizeCanvas s v).state.cssHeight } := by
  unfold resizeCanvas
  split_ifs <;> rfl

/-- C8 counterexample: `updateOptions({downscale: 0.08})` on an
instance whose current downscale is already 0.08 still invokes
`resizeCanvas` (`resizeTriggered = true`), so the resize is not
conditional on the value having changed — only on the key being
supplied. -/
theorem updateOptions_resizes_on_unchanged_downscale :
    testState.options.downscale = 8/100 ∧
    (updateOptions testState { downscale := some (8/100) } testVideo
        testEnv).resizeTriggered = true := ⟨rfl, rfl⟩

/-- C8 amended: on a live instance, `updateOptions` stores the
normalized merge of the current configuration with the partial input
(responsiveness derivation included), re-applies all four
presentation filter values from it, invokes `resizeCanvas` exactly
when the partial input supplies `downscale` or `scale` (whether or
not the value differs from the current one), and performs exactly one
non-forced (blending) sample pass whenever the canvas is
non-degenerate. -/
theorem updateOptions_merge_filters_resize_sample (s : GlowState)
    (o : GlowOptions) (v : Video) (env : DrawEnv)
    (hd : s.isDestroyed = false) :
    (updateOptions s o v env).state.options =
      normalizeOptions (mergeOptions s.options o) ∧
    (updateOptions s o v env).state.filterBlur =
      (normalizeOptions (mergeOptions s.options o)).blur ∧
    (updateOptions s o v env).state.filterOpacity =
      (normalizeOptions (mergeOptions s.options o)).opacity ∧
    (updateOptions s o v env).state.filterBrightness =
      (normalizeOptions (mergeOptions s.options o)).brightness ∧
    (updateOptions s o v env).state.filterSaturate =
      (normalizeOptions (mergeOptions s.options o)).saturate ∧
    (updateOptions s o v env).resizeTriggered =
      (o.downscale.isSome || o.scale.isSome) ∧
    (s.canvasWidth ≠ 0 → (updateOptions s o v env).samples = 1) := by
  refine ⟨updateOptions_options s o v env hd, ?_⟩
  simp only [updateOptions]
  rw [if_neg (by simp [hd])]
  split_ifs with hresize
  · refine ⟨?_, ?_, ?_, ?_, ?_, ?_⟩
    · rw [drawFrame_state_eq, resizeCanvas_state_eq]
    · rw [drawFrame_state_eq, resizeCanvas_state_eq]
    · rw [drawFrame_state_eq, resizeCanvas_state_eq]
    · rw [drawFrame_state_eq, resizeCanvas_state_eq]
    · rcases hresize with h | h <;> simp [h]
    · intro hw
      rw [resizeCanvas_samples]
      rw [drawFrame_samples_one]
      · rw [resizeCanvas_isDestroyed]
        exact hd
      · exact resizeCanvas_canvasWidth_ne_zero _ v hw
  · refine ⟨?_, ?_, ?_, ?_, ?_, ?_⟩
    · rw [drawFrame_state_eq]
    · rw [drawFrame_state_eq]
    · rw [drawFrame_state_eq]
    · rw [drawFrame_state_eq]
    · push_neg at hresize
      rcases hresize with ⟨h1, h2⟩
      simp [Bool.not_eq_true] at h1 h2
      simp [h1, h2]
    · intro hw
      exact drawFrame_samples_one _ v env hd hw

/-- Witness for C8's amended theorem at the counterexample input. -/
theorem updateOptions_merge_filters_resize_sample_witness :
    (updateOptions testState { downscale := some (8/100) } testVideo
        testEnv).resizeTriggered = true ∧
    (updateOptions testState { downscale := some (8/100) } testVideo
        testEnv).samples = 1 :=
  have h := updateOptions_merge_filters_resize_sample testState
    { downscale := some (8/100) } testVideo testEnv rfl
  ⟨h.2.2.2.2.2.1, h.2.2.2.2.2.2 (by norm_num [testState])⟩

/-- The state produced by the body of `destroy` (first call on a live
instance): loop stopped, pending frame callback and debounce timer
cancelled, observers disconnected, handlers detached, canvas removed,
previous buffer dropped. -/
def destroyedOf (s : GlowState) : GlowState :=
  { s with isDestroyed := true,
           isLooping := false,
           animationFrameId := none,
           resizeTimeout := none,
           resizeObserver := false,
           intersectionObserver := false,
           handlersAttached := false,
           canvasAttached := false,
           lastImage := none }

theorem destroy_live (s : GlowState) (hd : s.isDestroyed = false) :
    destroy s = ⟨destroyedOf s, 0, 0, 0⟩ := by
  unfold destroy destroyedOf
  rw [if_neg (by simp [hd])]

/-- C2: destroying a live instance twice (or any N ≥ 2 times) ends in
exactly the state of destroying it once; the first call cancels the
pending animation frame and debounce timer, disconnects both
observers, detaches the handlers and stops the loop; and every
previously scheduled callback (animation-frame tick, debounce-timer
body, resize-observer callback, intersection-observer callback)
invoked afterward leaves the state unchanged and executes zero sample
passes and zero resize passes. -/
theorem destroy_idempotent_and_retires_callbacks (s : GlowState)
    (v : Video) (t : ℚ) (i j : ℕ) (env : DrawEnv) (b : Bool)
    (hd : s.isDestroyed = false) :
    (destroy (destroy s).state).state = (destroy s).state ∧
    (∀ n, (fun x => (destroy x).state)^[n] ((destroy s).state) =
      (destroy s).state) ∧
    (destroy s).state.animationFrameId = none ∧
    (destroy s).state.resizeTimeout = none ∧
    (destroy s).state.resizeObserver = false ∧
    (destroy s).state.intersectionObserver = false ∧
    (destroy s).state.handlersAttached = false ∧
    (destroy s).state.isLooping = false ∧
    animationLoop (destroy s).state v t i env =
      ⟨(destroy s).state, 0, 0, 0⟩ ∧
    resizeTimeoutBody (destroy s).state v env =
      ⟨(destroy s).state, 0, 0, 0⟩ ∧
    debouncedResize (destroy s).state i = ⟨(destroy s).state, 0, 0, 0⟩ ∧
    intersectionCallback (destroy s).state b v j =
      ⟨(destroy s).state, 0, 0, 0⟩ := by
  simp only [destroy_live s hd]
  have habs : destroy (destroyedOf s) = ⟨destroyedOf s, 0, 0, 0⟩ :=
    destroy_absorbing _ rfl
  refine ⟨by rw [habs], ?_, rfl, rfl, rfl, rfl, rfl, rfl, ?_, ?_, ?_, ?_⟩
  · intro n
    induction n with
    | zero => rfl
    | succ k ih =>
        rw [Function.iterate_succ_apply', ih]
        show (destroy (destroyedOf s)).state = destroyedOf s
        rw [habs]
  · unfold animationLoop
    rw [if_pos (Or.inr (show (destroyedOf s).isDestroyed = true from rfl))]
    rfl
  · unfold resizeTimeoutBody
    rw [if_pos (show (destroyedOf s).isDestroyed = true from rfl)]
  · unfold debouncedResize
    rw [if_pos (show (destroyedOf s).isDestroyed = true from rfl)]
  · unfold intersectionCallback
    rw [if_pos (show (destroyedOf s).isDestroyed = true from rfl)]

/-- Witness for C2 at a live concrete state. -/
theorem destroy_idempotent_and_retires_callbacks_witness :
    (destroy (destroy testState).state).state = (destroy testState).state ∧
    (destroy testState).state.animationFrameId = none ∧
    animationLoop (destroy testState).state testVideo 0 0 testEnv =
      ⟨(destroy testState).state, 0, 0, 0⟩ :=
  have h := destroy_idempotent_and_retires_callbacks testState testVideo
    0 0 0 testEnv true rfl
  ⟨h.1, h.2.2.1, h.2.2.2.2.2.2.2.2.1⟩

/-! ## Buffer-dimension invariant lemmas -/

theorem drawAndBlendFrame_dims (v : Video) (cw ch : ℕ) (bo bn : ℚ)
    (li : Option ImageData) (env : DrawEnv)
    (h : ∀ img, li = some img → img.width = cw ∧ img.height = ch) :
    ∀ img, (drawAndBlendFrame v cw ch bo bn li env).result = some img →
      img.width = cw ∧ img.height = ch := by
  unfold drawAndBlendFrame
  split_ifs with h1 h2
  · exact h
  · exact h
  · cases li with
    | none =>
        intro img himg
        injection himg with h3
        subst h3
        exact ⟨rfl, rfl⟩
    | some last =>
        intro img himg
        injection himg with h3
        subst h3
        exact h last rfl

theorem inv_mk_none (s : GlowState) :
    BufferDimsInvariant { s with lastImage := none } := by
  intro img h
  exact Option.noConfusion h

theorem inv_drawFrame (s : GlowState) (v : Video) (env : DrawEnv)
    (h : BufferDimsInvariant s) :
    BufferDimsInvariant (drawFrame s v env).state := by
  unfold drawFrame
  split_ifs with h1 h2
  · exact h
  · exact h
  · intro img himg
    exact drawAndBlendFrame_dims v s.canvasWidth s.canvasHeight
      s.options.blendOld s.options.blendNew s.lastImage env h img himg

theorem inv_drawFrameImmediately (s : GlowState) (v : Video) (env : DrawEnv)
    (h : BufferDimsInvariant s) :
    BufferDimsInvariant (drawFrameImmediately s v env).state := by
  unfold drawFrameImmediately
  split_ifs with h1 h2
  · exact h
  · exact h
  · intro img himg
    exact drawAndBlendFrame_dims v s.canvasWidth s.canvasHeight
      s.options.blendOld s.options.blendNew none env
      (fun img h0 => Option.noConfusion h0) img himg

theorem inv_resizeCanvas (s : GlowState) (v : Video)
    (h : BufferDimsInvariant s) :
    BufferDimsInvariant (resizeCanvas s v).state := by
  unfold resizeCanvas
  split_ifs with h1 h2 h3
  · exact h
  · exact h
  · intro img himg
    exact Option.noConfusion himg
  · intro img himg
    exact h img himg

theorem inv_updateOptions (s : GlowState) (o : GlowOptions) (v : Video)
    (env : DrawEnv) (h : BufferDimsInvariant s) :
    BufferDimsInvariant (updateOptions s o v env).state := by
  unfold updateOptions
  split_ifs with h1 h2
  · exact h
  · exact inv_drawFrame _ v env (inv_resizeCanvas _ v h)
  · exact inv_drawFrame _ v env h

theorem inv_animationLoop (s : GlowState) (v : Video) (t : ℚ) (newId : ℕ)
    (env : DrawEnv) (h : BufferDimsInvariant s) :
    BufferDimsInvariant (animationLoop s v t newId env).state := by
  unfold animationLoop
  split_ifs with h1 h2
  · exact h
  · exact inv_drawFrame _ v env h
  · exact h

theorem inv_handleLoadStart (s : GlowState) (v : Video) (env : DrawEnv)
    (h : BufferDimsInvariant s) :
    BufferDimsInvariant (handleLoadStart s v env).state := by
  unfold handleLoadStart
  split_ifs with h1
  · exact h
  · exact inv_drawFrameImmediately _ v env (inv_mk_none s)

theorem inv_handleLoadedMetadata (s : GlowState) (v : Video)
    (h : BufferDimsInvariant s) :
    BufferDimsInvariant (handleLoadedMetadata s v).state := by
  unfold handleLoadedMetadata
  split_ifs with h1
  · exact h
  · exact inv_resizeCanvas _ v h

theorem inv_handleCanPlay (s : GlowState) (v : Video) (env : DrawEnv)
    (h : BufferDimsInvariant s) :
    BufferDimsInvariant (handleCanPlay s v env).state := by
  unfold handleCanPlay
  split_ifs with h1
  · exact h
  · exact inv_drawFrame _ v env (inv_resizeCanvas _ v h)

theorem inv_handlePlay (s : GlowState) (v : Video) (env : DrawEnv)
    (newId : ℕ) (h : BufferDimsInvariant s) :
    BufferDimsInvariant (handlePlay s v env newId).state := by
  simp only [handlePlay]
  split_ifs with h1 h2
  · exact h
  · exact inv_drawFrameImmediately _ v env (inv_mk_none s)
  · exact inv_drawFrameImmediately _ v env (inv_mk_none s)

theorem inv_handleSeeked (s : GlowState) (v : Video) (env : DrawEnv)
    (h : BufferDimsInvariant s) :
    BufferDimsInvariant (handleSeeked s v env).state := by
  unfold handleSeeked
  split_ifs with h1
  · exact h
  · exact inv_drawFrameImmediately _ v env (inv_mk_none s)

theorem inv_debouncedResize (s : GlowState) (newId : ℕ)
    (h : BufferDimsInvariant s) :
    BufferDimsInvariant (debouncedResize s newId).state := by
  unfold debouncedResize
  split_ifs with h1
  · exact h
  · exact h

theorem inv_resizeTimeoutBody (s : GlowState) (v : Video) (env : DrawEnv)
    (h : BufferDimsInvariant s) :
    BufferDimsInvariant (resizeTimeoutBody s v env).state := by
  unfold resizeTimeoutBody
  split_ifs with h1
  · exact h
  · exact inv_drawFrame _ v env (inv_resizeCanvas _ v h)

theorem inv_intersectionCallback (s : GlowState) (b : Bool) (v : Video)
    (newId : ℕ) (h : BufferDimsInvariant s) :
    BufferDimsInvariant (intersectionCallback s b v newId).state := by
  simp only [intersectionCallback, handleVisibilityChange]
  split_ifs <;> exact h

theorem inv_destroy (s : GlowState) (h : BufferDimsInvariant s) :
    BufferDimsInvariant (destroy s).state := by
  unfold destroy
  split_ifs with h1
  · exact h
  · intro img himg
    exact Option.noConfusion himg

theorem inv_step (s : GlowState) (e : Event) (h : BufferDimsInvariant s) :
    BufferDimsInvariant (step s e) := by
  cases e with
  | loadStart v env => exact inv_handleLoadStart s v env h
  | loadedMetadata v => exact inv_handleLoadedMetadata s v h
  | canPlay v env => exact inv_handleCanPlay s v env h
  | play v env newId => exact inv_handlePlay s v env newId h
  | pause => exact h
  | ended => exact h
  | seeked v env => exact inv_handleSeeked s v env h
  | frame v t newId env => exact inv_animationLoop s v t newId env h
  | resizeSignal newId => exact inv_debouncedResize s newId h
  | resizeFire v env => exact inv_resizeTimeoutBody s v env h
  | visibility b v newId => exact inv_intersectionCallback s b v newId h
  | update o v env => exact inv_updateOptions s o v env h
  | destroyCall => exact inv_destroy s h

/-- A 1280×720 video, whose target sampling dimensions under the
default downscale differ from `testState`'s 51×29. -/
def bigVideo : Video :=
  { readyState := 4, videoWidth := 1280, videoHeight := 720,
    rectWidth := 1280, rectHeight := 720, paused := false, ended := false }

/-- C5: a live resize pass whose computed sampling dimensions differ
from the canvas's current pixel dimensions sets the previous frame
buffer absent in that same pass (and installs the computed
dimensions); consequently the invariant "a present previous buffer
matches the sampling canvas dimensions" is preserved by every event
of the instance, and along any event sequence — so the first sample
after a dimension change starts from an absent buffer, a cut. -/
theorem resize_invalidation_and_buffer_dims_invariant :
    (∀ (s : GlowState) (v : Video),
      s.isDestroyed = false →
      ¬ (resizeVideoW v ≤ MIN_VIDEO_DIMENSION ∨
         resizeVideoH v ≤ MIN_VIDEO_DIMENSION) →
      (s.canvasWidth ≠ resizeTargetW s v ∨
       s.canvasHeight ≠ resizeTargetH s v) →
      (resizeCanvas s v).state.lastImage = none ∧
      (resizeCanvas s v).state.canvasWidth = resizeTargetW s v ∧
      (resizeCanvas s v).state.canvasHeight = resizeTargetH s v) ∧
    (∀ (s : GlowState) (e : Event),
      BufferDimsInvariant s → BufferDimsInvariant (step s e)) ∧
    (∀ (s : GlowState) (es : List Event),
      BufferDimsInvariant s → BufferDimsInvariant (run s es)) := by
  refine ⟨?_, inv_step, ?_⟩
  · intro s v hd hdim hchanged
    unfold resizeCanvas
    rw [if_neg (by simp [hd]), if_neg hdim, if_pos hchanged]
    exact ⟨rfl, rfl, rfl⟩
  · intro s es h
    induction es generalizing s with
    | nil => exact h
    | cons e rest ih => exact ih _ (inv_step s e h)

/-- Witness for C5: resizing `testState` (51×29 canvas, buffer
absent) against a 1280×720 video invalidates the buffer and installs
the 102×58 target; the invariant holds after a concrete step. -/
theorem resize_invalidation_and_buffer_dims_invariant_witness :
    (resizeCanvas testState bigVideo).state.lastImage = none ∧
    BufferDimsInvariant (step testState Event.pause) := by
  have h := resize_invalidation_and_buffer_dims_invariant
  constructor
  · refine (h.1 testState bigVideo rfl ?_ ?_).1
    · norm_num [resizeVideoW, resizeVideoH, bigVideo, MIN_VIDEO_DIMENSION]
    · left
      norm_num [resizeTargetW, resizeVideoW, bigVideo, testState,
        DEFAULT_OPTIONS, jsRound, MIN_CANVAS_DIMENSION]
      decide
  · exact h.2.1 testState Event.pause (by decide)

end VideoAmbientGlow
